import Mathlib

/-!
Verification development for the collision-and-dynamics core of a 2D
rigid-body physics engine (PlayRho / modified Box2D).

The definitions below shallowly embed the C++ sources:
- `Box2D/Collision/BroadPhase.cpp` (broad phase pair management),
- `PlayRho/Dynamics/Joints/Joint.cpp` (type-tag dispatched joint accessors),
- `PlayRho/Dynamics/Joints/{Target,Motor,Wheel}JointConf.hpp`,
- `playrho/Negative.hpp` (checked negative values),
and, where the corresponding implementation files are not part of the
source tree (the dynamic AABB tree, the GJK `Distance` function, the
`WorldImpl` step-lock machinery, and some joint-conf headers), models
built from the specification's descriptions of those components.

Machine scalars are embedded as exact rationals (`ℚ`); container
indices and identifiers as `Nat`.
-/

namespace PhysCore

/-! ## Basic 2D geometry -/

/-- A 2D vector with rational coordinates (embeds `Vec2`). -/
abbrev Vec2 : Type := ℚ × ℚ

/-- Componentwise vector addition. -/
def vadd (u v : Vec2) : Vec2 := (u.1 + v.1, u.2 + v.2)

/-- Componentwise vector subtraction. -/
def vsub (u v : Vec2) : Vec2 := (u.1 - v.1, u.2 - v.2)

/-- Scalar multiplication of a vector. -/
def vsmul (s : ℚ) (v : Vec2) : Vec2 := (s * v.1, s * v.2)

/-- Vector negation. -/
def vneg (v : Vec2) : Vec2 := (-v.1, -v.2)

/-- Dot product. -/
def vdot (u v : Vec2) : ℚ := u.1 * v.1 + u.2 * v.2

/-- 2D cross product (scalar-valued). -/
def vcross (u v : Vec2) : ℚ := u.1 * v.2 - u.2 * v.1

/-- Cross product of a scalar with a vector: `s × v = (-s*v.y, s*v.x)`. -/
def scross (s : ℚ) (v : Vec2) : Vec2 := (-s * v.2, s * v.1)

/-- Cross product of a vector with a scalar: `v × s = (s*v.y, -s*v.x)`. -/
def vcrossS (v : Vec2) (s : ℚ) : Vec2 := (s * v.2, -s * v.1)

/-- An axis-aligned bounding box given by its lower and upper corners
(embeds `AABB` from the data model: invariantly `lower ≤ upper`). -/
structure AABB where
  lowerX : ℚ
  lowerY : ℚ
  upperX : ℚ
  upperY : ℚ
deriving DecidableEq

instance : Inhabited AABB := ⟨⟨0, 0, 0, 0⟩⟩

/-- Whether two AABBs overlap (embeds `TestOverlap`: no separating axis). -/
def testOverlap (a b : AABB) : Bool :=
  decide (b.lowerX ≤ a.upperX) && decide (b.lowerY ≤ a.upperY) &&
  decide (a.lowerX ≤ b.upperX) && decide (a.lowerY ≤ b.upperY)

/-- Whether AABB `a` contains AABB `b` (embeds `AABB::Contains`). -/
def AABB.contains (a b : AABB) : Bool :=
  decide (a.lowerX ≤ b.lowerX) && decide (a.lowerY ≤ b.lowerY) &&
  decide (b.upperX ≤ a.upperX) && decide (b.upperY ≤ a.upperY)

/-! ## Dynamic AABB tree

Modelled from the spec: the `DynamicTree` implementation is not among the
source files; the spec describes it as "a dynamic bounding-volume tree
indexed by integer proxy IDs" whose query visits "every tree leaf
overlapping the query" and which "fattens boxes" on (re-)insertion by
"a fixed margin plus a velocity-predicted displacement". The tree is
modelled by its leaf set; the internal node structure only affects
performance, not which leaves a query reports. -/

/-- One leaf of the dynamic tree: a proxy id, its fat AABB, and the
opaque user-data handle. -/
structure TreeLeaf where
  leafId : Nat
  fatAABB : AABB
  userData : Nat
deriving DecidableEq

/-- Modelled from the spec: the dynamic bounding-volume tree, reduced to
its leaf list (queries and per-leaf lookups are functions of the leaves). -/
structure DynamicTree where
  leaves : List TreeLeaf
deriving DecidableEq

/-- The fixed fattening margin (`aabbExtension`). -/
def aabbExtension : ℚ := 1 / 10

/-- Modelled from the spec: the fat AABB computed on (re-)insertion —
the tight AABB "expanded by a fixed margin plus a velocity-predicted
displacement". -/
def fatten (aabb : AABB) (displacement : Vec2) : AABB :=
  let extended : AABB :=
    ⟨aabb.lowerX - aabbExtension, aabb.lowerY - aabbExtension,
     aabb.upperX + aabbExtension, aabb.upperY + aabbExtension⟩
  ⟨(if displacement.1 < 0 then extended.lowerX + displacement.1 else extended.lowerX),
   (if displacement.2 < 0 then extended.lowerY + displacement.2 else extended.lowerY),
   (if displacement.1 < 0 then extended.upperX else extended.upperX + displacement.1),
   (if displacement.2 < 0 then extended.upperY else extended.upperY + displacement.2)⟩

/-- Gets the fat AABB stored for the given proxy (embeds
`DynamicTree::GetFatAABB`). -/
def DynamicTree.GetFatAABB (t : DynamicTree) (proxyId : Nat) : AABB :=
  match t.leaves.find? (fun l => l.leafId = proxyId) with
  | some l => l.fatAABB
  | none => default

/-- Gets the user data stored for the given proxy (embeds
`DynamicTree::GetUserData`). -/
def DynamicTree.GetUserData (t : DynamicTree) (proxyId : Nat) : Nat :=
  match t.leaves.find? (fun l => l.leafId = proxyId) with
  | some l => l.userData
  | none => 0

/-- Modelled from the spec: a tree query reports every leaf whose fat
AABB overlaps the query AABB. -/
def DynamicTree.query (t : DynamicTree) (aabb : AABB) : List Nat :=
  (t.leaves.filter (fun l => testOverlap l.fatAABB aabb)).map TreeLeaf.leafId

/-- Modelled from the spec: `DynamicTree::MoveProxy` re-inserts the
proxy with a freshly fattened AABB, and reports `true`, exactly when the
tight AABB has left the proxy's current fat AABB; otherwise it leaves
the tree unchanged and reports `false`. -/
def DynamicTree.MoveProxy (t : DynamicTree) (proxyId : Nat) (aabb : AABB)
    (displacement : Vec2) : DynamicTree × Bool :=
  if (t.GetFatAABB proxyId).contains aabb then
    (t, false)
  else
    (⟨t.leaves.map (fun l =>
        if l.leafId = proxyId then { l with fatAABB := fatten aabb displacement } else l)⟩,
     true)

/-- Modelled from the spec: destroying a proxy removes its leaf. -/
def DynamicTree.DestroyProxy (t : DynamicTree) (proxyId : Nat) : DynamicTree :=
  ⟨t.leaves.filter (fun l => ¬ l.leafId = proxyId)⟩

/-! ## BroadPhase (from `Box2D/Collision/BroadPhase.cpp`) -/

/-- The null-proxy sentinel (`BroadPhase::e_nullProxy`). -/
def e_nullProxy : Nat := 4294967295

/-- A candidate pair of proxy ids (embeds `ProxyIdPair`). -/
structure ProxyIdPair where
  proxyIdA : Nat
  proxyIdB : Nat
deriving DecidableEq

/-- The state of the broad phase: the tree, the move buffer, the pair
buffer, and the proxy count. Buffer capacities are not modelled: the
C++ buffers grow geometrically on demand, so capacity never affects
which elements are stored. -/
structure BroadPhase where
  m_tree : DynamicTree
  m_moveBuffer : List Nat
  m_pairBuffer : List ProxyIdPair
  m_proxyCount : Nat

/-- Embeds `BroadPhase::BufferMove`: appends a proxy id to the move
buffer (growing it as needed). -/
def BroadPhase.BufferMove (bp : BroadPhase) (proxyId : Nat) : BroadPhase :=
  { bp with m_moveBuffer := bp.m_moveBuffer ++ [proxyId] }

/-- Embeds `BroadPhase::UnBufferMove`: replaces every move-buffer slot
holding the given proxy id with the null-proxy sentinel. -/
def BroadPhase.UnBufferMove (bp : BroadPhase) (proxyId : Nat) : BroadPhase :=
  { bp with m_moveBuffer :=
      bp.m_moveBuffer.map (fun x => if x = proxyId then e_nullProxy else x) }

/-- Embeds `BroadPhase::MoveProxy`: asks the tree to move the proxy and
buffers the proxy for pairing only if the tree reports it moved. -/
def BroadPhase.MoveProxy (bp : BroadPhase) (proxyId : Nat) (aabb : AABB)
    (displacement : Vec2) : BroadPhase :=
  let moved := (bp.m_tree.MoveProxy proxyId aabb displacement).2
  let bp' := { bp with m_tree := (bp.m_tree.MoveProxy proxyId aabb displacement).1 }
  if moved then bp'.BufferMove proxyId else bp'

/-- Embeds `BroadPhase::TouchProxy`: unconditionally buffers the proxy. -/
def BroadPhase.TouchProxy (bp : BroadPhase) (proxyId : Nat) : BroadPhase :=
  bp.BufferMove proxyId

/-- Embeds `BroadPhase::DestroyProxy`: unbuffers the proxy, decrements
the proxy count, and destroys the tree leaf. -/
def BroadPhase.DestroyProxy (bp : BroadPhase) (proxyId : Nat) : BroadPhase :=
  let bp' := bp.UnBufferMove proxyId
  { bp' with m_proxyCount := bp'.m_proxyCount - 1,
             m_tree := bp'.m_tree.DestroyProxy proxyId }

/-- The pair stored by `BroadPhase::QueryCallback`:
`ProxyIdPair{Min(proxyId, queryProxyId), Max(proxyId, queryProxyId)}`. -/
def mkPair (a b : Nat) : ProxyIdPair := ⟨min a b, max a b⟩

/-- Embeds the effect of `DynamicTree::Query` with
`BroadPhase::QueryCallback` for one query proxy: every tree hit other
than the query proxy itself is appended to the pair buffer with the
smaller id first. -/
def pairsForProxy (t : DynamicTree) (queryProxyId : Nat) : List ProxyIdPair :=
  (t.query (t.GetFatAABB queryProxyId)).filterMap
    (fun hitId => if hitId = queryProxyId then none else some (mkPair hitId queryProxyId))

/-- Embeds the query loop of `BroadPhase::UpdatePairs`: for every
buffered, non-null proxy, query the tree with its fat AABB and collect
the resulting pairs in order. -/
def gatherPairs (t : DynamicTree) : List Nat → List ProxyIdPair
  | [] => []
  | proxyId :: rest =>
      (if proxyId = e_nullProxy then [] else pairsForProxy t proxyId) ++ gatherPairs t rest

/-- The strict comparator passed to `std::sort` in
`BroadPhase::UpdatePairs` (lexicographic on `(proxyIdA, proxyIdB)`). -/
def pairLtb (p q : ProxyIdPair) : Bool :=
  decide (p.proxyIdA < q.proxyIdA) ||
    (decide (p.proxyIdA = q.proxyIdA) && decide (p.proxyIdB < q.proxyIdB))

/-- The non-strict order induced by the sort comparator: after
`std::sort`, consecutive elements `p, q` satisfy `¬ pairLtb q p`. -/
def pairLeb (p q : ProxyIdPair) : Bool := ! pairLtb q p

/-- Strict lexicographic order on proxy id pairs, as a proposition. -/
def pairLt (p q : ProxyIdPair) : Prop :=
  p.proxyIdA < q.proxyIdA ∨ (p.proxyIdA = q.proxyIdA ∧ p.proxyIdB < q.proxyIdB)

/-- The non-strict order relation induced by the comparator, as a
proposition (used to state sortedness of the pair buffer). -/
def pairLe (p q : ProxyIdPair) : Prop := pairLeb p q = true

instance : DecidableRel pairLe := fun p q => instDecidableEqBool (pairLeb p q) true

/-- Embeds the effect of the `std::sort` call of
`BroadPhase::UpdatePairs`: the pair buffer sorted by the lexicographic
comparator. `std::sort` guarantees only a sorted permutation (its
choice among equal elements is unobservable because the comparator's
equivalence is equality of both ids), so a concrete sorting algorithm
with that postcondition embeds it. -/
def sortPairBuffer (l : List ProxyIdPair) : List ProxyIdPair :=
  List.insertionSort pairLe l

/-- Embeds the reporting loop of `BroadPhase::UpdatePairs` after the
first element of a run: skip elements equal to the current primary
pair; at the first differing pair, invoke the callback on its user data
and make it the new primary. Returns the accepted count together with
the list of pairs for which the callback was invoked. -/
def sendAux (t : DynamicTree) (callback : Nat → Nat → Bool) (primary : ProxyIdPair) :
    List ProxyIdPair → Nat × List ProxyIdPair
  | [] => (0, [])
  | q :: rest =>
      if q = primary then sendAux t callback primary rest
      else
        let r := sendAux t callback q rest
        ((if callback (t.GetUserData q.proxyIdA) (t.GetUserData q.proxyIdB) then 1 else 0) + r.1,
         q :: r.2)

/-- Embeds the reporting loop of `BroadPhase::UpdatePairs`: walk the
sorted pair buffer once, invoke the callback on the user data of the
first occurrence of each distinct pair, count the pairs the callback
accepted, and skip consecutive duplicates. -/
def sendPairs (t : DynamicTree) (callback : Nat → Nat → Bool) :
    List ProxyIdPair → Nat × List ProxyIdPair
  | [] => (0, [])
  | p :: rest =>
      let r := sendAux t callback p rest
      ((if callback (t.GetUserData p.proxyIdA) (t.GetUserData p.proxyIdB) then 1 else 0) + r.1,
       p :: r.2)

/-- The accepted-pair count and reported-pair list produced by one call
to `BroadPhase::UpdatePairs` on the current buffers. -/
def BroadPhase.updateResult (bp : BroadPhase) (callback : Nat → Nat → Bool) :
    Nat × List ProxyIdPair :=
  sendPairs bp.m_tree callback
    (sortPairBuffer (gatherPairs bp.m_tree bp.m_moveBuffer))

/-- Embeds `BroadPhase::UpdatePairs`: reset the pair buffer, query the
tree for each buffered non-null proxy, reset the move buffer, sort the
pair buffer, report first occurrences, and return the accepted count. -/
def BroadPhase.UpdatePairs (bp : BroadPhase) (callback : Nat → Nat → Bool) :
    Nat × BroadPhase :=
  ((bp.updateResult callback).1,
   { bp with m_moveBuffer := [],
             m_pairBuffer := sortPairBuffer (gatherPairs bp.m_tree bp.m_moveBuffer) })

/-! ## BroadPhase lemmas -/

theorem mem_pairsForProxy {t : DynamicTree} {qid : Nat} {p : ProxyIdPair}
    (h : p ∈ pairsForProxy t qid) :
    ∃ hit ∈ t.query (t.GetFatAABB qid), hit ≠ qid ∧ p = mkPair hit qid := by
  rcases List.mem_filterMap.mp h with ⟨hit, hmem, hcond⟩
  by_cases heq : hit = qid
  · simp [heq] at hcond
  · refine ⟨hit, hmem, heq, ?_⟩
    simp [heq] at hcond
    exact hcond.symm

theorem mem_gatherPairs {t : DynamicTree} {p : ProxyIdPair} :
    ∀ {buf : List Nat}, p ∈ gatherPairs t buf →
      ∃ qid ∈ buf, qid ≠ e_nullProxy ∧ p ∈ pairsForProxy t qid
  | [], h => absurd h (by simp [gatherPairs])
  | qid :: rest, h => by
    rw [gatherPairs, List.mem_append] at h
    rcases h with h | h
    · by_cases hq : qid = e_nullProxy
      · simp [hq] at h
      · exact ⟨qid, List.mem_cons_self .., hq, by simpa [hq] using h⟩
    · rcases mem_gatherPairs h with ⟨q, hqmem, hqnull, hp⟩
      exact ⟨q, List.mem_cons_of_mem _ hqmem, hqnull, hp⟩

theorem mkPair_lt_of_ne {a b : Nat} (h : a ≠ b) :
    (mkPair a b).proxyIdA < (mkPair a b).proxyIdB := by
  simp only [mkPair]
  omega

theorem pairLeb_iff {p q : ProxyIdPair} :
    pairLeb p q = true ↔
      p.proxyIdA < q.proxyIdA ∨ (p.proxyIdA = q.proxyIdA ∧ p.proxyIdB ≤ q.proxyIdB) := by
  simp only [pairLeb, pairLtb, Bool.not_eq_true', Bool.or_eq_false_iff,
    Bool.and_eq_false_iff, decide_eq_false_iff_not, not_lt]
  constructor
  · rintro ⟨h1, h2 | h2⟩ <;> omega
  · intro h
    constructor <;> omega

theorem pairLt_iff {p q : ProxyIdPair} :
    pairLt p q ↔ p.proxyIdA < q.proxyIdA ∨ (p.proxyIdA = q.proxyIdA ∧ p.proxyIdB < q.proxyIdB) :=
  Iff.rfl

theorem pairLeb_trans (a b c : ProxyIdPair) :
    pairLeb a b → pairLeb b c → pairLeb a c := by
  simp only [pairLeb_iff]
  omega

theorem pairLeb_total (a b : ProxyIdPair) : pairLeb a b || pairLeb b a := by
  rw [Bool.or_eq_true, pairLeb_iff, pairLeb_iff]
  omega

theorem pairLt_of_pairLeb_of_ne {p q : ProxyIdPair} (hle : pairLeb p q = true)
    (hne : p ≠ q) : pairLt p q := by
  rw [pairLeb_iff] at hle
  rw [pairLt_iff]
  have hfields : p.proxyIdA ≠ q.proxyIdA ∨ p.proxyIdB ≠ q.proxyIdB := by
    by_contra hcon
    push_neg at hcon
    exact hne (by cases p; cases q; simp_all)
  omega

theorem pairLt_of_lt_of_leb {p q r : ProxyIdPair} (h1 : pairLt p q)
    (h2 : pairLeb q r = true) : pairLt p r := by
  rw [pairLeb_iff] at h2
  rw [pairLt_iff] at h1 ⊢
  omega

theorem pairLt_trans {p q r : ProxyIdPair} (h1 : pairLt p q) (h2 : pairLt q r) :
    pairLt p r := by
  rw [pairLt_iff] at h1 h2 ⊢
  omega

instance : IsTrans ProxyIdPair pairLe := ⟨fun a b c => pairLeb_trans a b c⟩

instance : IsTotal ProxyIdPair pairLe :=
  ⟨fun a b => (Bool.or_eq_true _ _).mp (pairLeb_total a b)⟩

theorem sendAux_snd_sublist (t : DynamicTree) (callback : Nat → Nat → Bool) :
    ∀ (l : List ProxyIdPair) (primary : ProxyIdPair),
      (sendAux t callback primary l).2.Sublist l := by
  intro l
  induction l with
  | nil => intro primary; simp [sendAux]
  | cons q rest ih =>
    intro primary
    rw [sendAux]
    by_cases hq : q = primary
    · simp only [if_pos hq]
      exact List.Sublist.cons q (ih primary)
    · simp only [if_neg hq]
      exact List.Sublist.cons₂ q (ih q)

theorem sendAux_snd_pairwise (t : DynamicTree) (callback : Nat → Nat → Bool) :
    ∀ (l : List ProxyIdPair) (primary : ProxyIdPair), l.Pairwise pairLe →
      (∀ x ∈ l, pairLe primary x) →
      (∀ x ∈ (sendAux t callback primary l).2, pairLt primary x) ∧
        (sendAux t callback primary l).2.Pairwise pairLt := by
  intro l
  induction l with
  | nil => intro primary _ _; simp [sendAux]
  | cons q rest ih =>
    intro primary hsort hge
    have hrest := (List.pairwise_cons.mp hsort).2
    have hq_le := (List.pairwise_cons.mp hsort).1
    rw [sendAux]
    by_cases hq : q = primary
    · simp only [if_pos hq]
      refine ih primary hrest (fun x hx => ?_)
      have := hq_le x hx
      rw [hq] at this
      exact this
    · simp only [if_neg hq]
      have hlt_pq : pairLt primary q :=
        pairLt_of_pairLeb_of_ne (hge q (List.mem_cons_self ..)) (fun h => hq h.symm)
      have hih := ih q hrest hq_le
      constructor
      · intro x hx
        rcases List.mem_cons.mp hx with rfl | hx'
        · exact hlt_pq
        · exact pairLt_trans hlt_pq (hih.1 x hx')
      · rw [List.pairwise_cons]
        exact ⟨hih.1, hih.2⟩

theorem sendAux_fst_eq_filter_length (t : DynamicTree) (callback : Nat → Nat → Bool) :
    ∀ (l : List ProxyIdPair) (primary : ProxyIdPair),
      (sendAux t callback primary l).1 =
        ((sendAux t callback primary l).2.filter
          (fun p => callback (t.GetUserData p.proxyIdA) (t.GetUserData p.proxyIdB))).length := by
  intro l
  induction l with
  | nil => intro primary; simp [sendAux]
  | cons q rest ih =>
    intro primary
    rw [sendAux]
    by_cases hq : q = primary
    · simp only [if_pos hq]
      exact ih primary
    · simp only [if_neg hq, List.filter_cons]
      by_cases hc : callback (t.GetUserData q.proxyIdA) (t.GetUserData q.proxyIdB) = true
      · simp only [hc, if_true, List.length_cons]
        rw [ih q]
        omega
      · rw [Bool.not_eq_true] at hc
        simp only [hc, Bool.false_eq_true, if_false, Nat.zero_add]
        exact ih q

theorem sendPairs_snd_sublist (t : DynamicTree) (callback : Nat → Nat → Bool) :
    ∀ l : List ProxyIdPair, (sendPairs t callback l).2.Sublist l := by
  intro l
  cases l with
  | nil => simp [sendPairs]
  | cons p rest =>
    rw [sendPairs]
    exact List.Sublist.cons₂ p (sendAux_snd_sublist t callback rest p)

theorem sendPairs_snd_pairwise (t : DynamicTree) (callback : Nat → Nat → Bool)
    (l : List ProxyIdPair) (hsort : l.Pairwise pairLe) :
    (sendPairs t callback l).2.Pairwise pairLt := by
  cases l with
  | nil => simp [sendPairs]
  | cons p rest =>
    rw [sendPairs, List.pairwise_cons]
    have h := sendAux_snd_pairwise t callback rest p
      (List.pairwise_cons.mp hsort).2 (List.pairwise_cons.mp hsort).1
    exact ⟨h.1, h.2⟩

theorem sendPairs_fst_eq_filter_length (t : DynamicTree) (callback : Nat → Nat → Bool) :
    ∀ l : List ProxyIdPair,
      (sendPairs t callback l).1 =
        ((sendPairs t callback l).2.filter
          (fun p => callback (t.GetUserData p.proxyIdA) (t.GetUserData p.proxyIdB))).length := by
  intro l
  cases l with
  | nil => simp [sendPairs]
  | cons p rest =>
    rw [sendPairs]
    simp only [List.filter_cons]
    by_cases hc : callback (t.GetUserData p.proxyIdA) (t.GetUserData p.proxyIdB) = true
    · simp only [hc, if_true, List.length_cons]
      rw [sendAux_fst_eq_filter_length t callback rest p]
      omega
    · rw [Bool.not_eq_true] at hc
      simp only [hc, Bool.false_eq_true, if_false, Nat.zero_add]
      exact sendAux_fst_eq_filter_length t callback rest p

theorem gatherPairs_skips_null (t : DynamicTree) :
    ∀ buf : List Nat,
      gatherPairs t buf = gatherPairs t (buf.filter (fun x => ! (x == e_nullProxy)))
  | [] => rfl
  | qid :: rest => by
    by_cases hq : qid = e_nullProxy
    · simp [gatherPairs, hq, List.filter_cons, gatherPairs_skips_null t rest]
    · simp [gatherPairs, hq, List.filter_cons, gatherPairs_skips_null t rest]

/-! ## Claim theorems about the broad phase -/

/-- C1: For every set of buffered proxies, one `BroadPhase::UpdatePairs`
call invokes the pair callback at most once per distinct unordered proxy
pair and never for a self-pair (every reported pair has its smaller
proxy id first, and the reported sequence is strictly increasing in
lexicographic `(A, B)` order, so no pair repeats and pairs are visited
in lexicographic order), and every reported pair arises from a tree
query hit of some buffered non-null proxy's fat AABB. -/
theorem updatePairs_reported_pairs_sound (bp : BroadPhase) (callback : Nat → Nat → Bool) :
    (∀ p ∈ (bp.updateResult callback).2, p.proxyIdA < p.proxyIdB) ∧
    ((bp.updateResult callback).2.Pairwise pairLt) ∧
    (∀ p ∈ (bp.updateResult callback).2,
      ∃ qid ∈ bp.m_moveBuffer, qid ≠ e_nullProxy ∧
        ∃ hit ∈ bp.m_tree.query (bp.m_tree.GetFatAABB qid), hit ≠ qid ∧ p = mkPair hit qid) := by
  have hsorted : (sortPairBuffer (gatherPairs bp.m_tree bp.m_moveBuffer)).Pairwise pairLe :=
    List.sorted_insertionSort pairLe (gatherPairs bp.m_tree bp.m_moveBuffer)
  have hmem : ∀ p ∈ (bp.updateResult callback).2, p ∈ gatherPairs bp.m_tree bp.m_moveBuffer := by
    intro p hp
    have h1 : p ∈ sortPairBuffer (gatherPairs bp.m_tree bp.m_moveBuffer) :=
      (sendPairs_snd_sublist _ _ _).mem hp
    exact (List.perm_insertionSort pairLe (gatherPairs bp.m_tree bp.m_moveBuffer)).mem_iff.mp h1
  refine ⟨?_, ?_, ?_⟩
  · intro p hp
    rcases mem_gatherPairs (hmem p hp) with ⟨qid, _, _, hpf⟩
    rcases mem_pairsForProxy hpf with ⟨hit, _, hne, rfl⟩
    exact mkPair_lt_of_ne hne
  · exact sendPairs_snd_pairwise _ _ _ hsorted
  · intro p hp
    rcases mem_gatherPairs (hmem p hp) with ⟨qid, hqmem, hqnull, hpf⟩
    rcases mem_pairsForProxy hpf with ⟨hit, hhit, hne, hp'⟩
    exact ⟨qid, hqmem, hqnull, hit, hhit, hne, hp'⟩

/-- C8: The value returned by `BroadPhase::UpdatePairs` equals the
number of reported pairs for which the callback returned `true`. -/
theorem updatePairs_count_eq_accepted (bp : BroadPhase) (callback : Nat → Nat → Bool) :
    (bp.UpdatePairs callback).1 =
      ((bp.updateResult callback).2.filter
        (fun p => callback (bp.m_tree.GetUserData p.proxyIdA)
          (bp.m_tree.GetUserData p.proxyIdB))).length :=
  sendPairs_fst_eq_filter_length bp.m_tree callback _

/-- C6: `UnBufferMove` (as used by `DestroyProxy`) tombstones every
move-buffer slot holding the given proxy id with the null-proxy
sentinel, preserving the buffer's length and all other slots;
`UpdatePairs` ignores sentinel slots in its query loop and leaves the
move buffer empty. -/
theorem unBufferMove_tombstones (bp : BroadPhase) (proxyId : Nat) :
    ((bp.UnBufferMove proxyId).m_moveBuffer.length = bp.m_moveBuffer.length) ∧
    (∀ i : Nat, ((bp.UnBufferMove proxyId).m_moveBuffer)[i]? =
      (bp.m_moveBuffer[i]?).map (fun x => if x = proxyId then e_nullProxy else x)) ∧
    ((bp.DestroyProxy proxyId).m_moveBuffer = (bp.UnBufferMove proxyId).m_moveBuffer) ∧
    (gatherPairs bp.m_tree bp.m_moveBuffer =
      gatherPairs bp.m_tree (bp.m_moveBuffer.filter (fun x => ! (x == e_nullProxy)))) ∧
    (∀ callback, ((bp.UpdatePairs callback).2).m_moveBuffer = []) := by
  refine ⟨?_, ?_, rfl, gatherPairs_skips_null bp.m_tree bp.m_moveBuffer, fun _ => rfl⟩
  · simp [BroadPhase.UnBufferMove]
  · intro i
    simp [BroadPhase.UnBufferMove, List.getElem?_map]

/-- C5: `BroadPhase::MoveProxy` appends the proxy to the move buffer if
and only if the tree's `MoveProxy` reports a re-insertion, which happens
exactly when the tight AABB has left the proxy's current fat AABB;
otherwise neither the tree nor the move buffer (nor anything else in the
broad phase) changes. -/
theorem moveProxy_buffers_iff_reinserted (bp : BroadPhase) (proxyId : Nat)
    (aabb : AABB) (displacement : Vec2) :
    ((bp.m_tree.GetFatAABB proxyId).contains aabb = true →
      (bp.m_tree.MoveProxy proxyId aabb displacement).2 = false ∧
      bp.MoveProxy proxyId aabb displacement = bp) ∧
    ((bp.m_tree.GetFatAABB proxyId).contains aabb = false →
      (bp.m_tree.MoveProxy proxyId aabb displacement).2 = true ∧
      (bp.MoveProxy proxyId aabb displacement).m_moveBuffer = bp.m_moveBuffer ++ [proxyId] ∧
      (bp.MoveProxy proxyId aabb displacement).m_tree =
        (bp.m_tree.MoveProxy proxyId aabb displacement).1 ∧
      (bp.MoveProxy proxyId aabb displacement).m_pairBuffer = bp.m_pairBuffer ∧
      (bp.MoveProxy proxyId aabb displacement).m_proxyCount = bp.m_proxyCount) := by
  constructor
  · intro h
    constructor
    · simp [DynamicTree.MoveProxy, h]
    · simp [BroadPhase.MoveProxy, DynamicTree.MoveProxy, h]
  · intro h
    refine ⟨?_, ?_, ?_, ?_, ?_⟩ <;>
      simp [BroadPhase.MoveProxy, BroadPhase.BufferMove, DynamicTree.MoveProxy, h]

/-- A two-proxy broad phase used to witness the broad-phase theorems on
concrete data: proxies 1 and 2 have overlapping fat AABBs and proxy 1
is buffered as moved. -/
def sampleBP : BroadPhase :=
  ⟨⟨[⟨1, ⟨0, 0, 2, 2⟩, 10⟩, ⟨2, ⟨1, 1, 3, 3⟩, 20⟩]⟩, [1], [], 2⟩

/-- Witness for the C1 theorem at a concrete broad phase: the pair
`(1, 2)` is reported, and the theorem locates the buffered proxy and
tree query hit it arose from. -/
theorem updatePairs_reported_pairs_sound_witness :
    (⟨1, 2⟩ : ProxyIdPair) ∈ (sampleBP.updateResult (fun _ _ => true)).2 ∧
    ∃ qid ∈ sampleBP.m_moveBuffer, qid ≠ e_nullProxy ∧
      ∃ hit ∈ sampleBP.m_tree.query (sampleBP.m_tree.GetFatAABB qid), hit ≠ qid ∧
        (⟨1, 2⟩ : ProxyIdPair) = mkPair hit qid :=
  ⟨by decide,
   (updatePairs_reported_pairs_sound sampleBP (fun _ _ => true)).2.2 ⟨1, 2⟩ (by decide)⟩

/-- Witness for the C5 theorem at concrete inputs: a tight AABB still
inside proxy 1's fat AABB leaves the broad phase unchanged, while one
outside gets the proxy re-buffered. -/
theorem moveProxy_buffers_iff_reinserted_witness :
    ((sampleBP.m_tree.GetFatAABB 1).contains ⟨1, 1, 2, 2⟩ = true ∧
      sampleBP.MoveProxy 1 ⟨1, 1, 2, 2⟩ (0, 0) = sampleBP) ∧
    ((sampleBP.m_tree.GetFatAABB 1).contains ⟨5, 5, 6, 6⟩ = false ∧
      (sampleBP.MoveProxy 1 ⟨5, 5, 6, 6⟩ (0, 0)).m_moveBuffer = sampleBP.m_moveBuffer ++ [1]) :=
  ⟨⟨by decide, ((moveProxy_buffers_iff_reinserted sampleBP 1 ⟨1, 1, 2, 2⟩ (0, 0)).1 (by decide)).2⟩,
   ⟨by decide,
    (((moveProxy_buffers_iff_reinserted sampleBP 1 ⟨5, 5, 6, 6⟩ (0, 0)).2 (by decide)).2).1⟩⟩

/-! ## Joint configurations

`TargetJointConf`, `MotorJointConf` and `WheelJointConf` are embedded
from their headers in the source tree. The remaining joint-conf headers
are not among the source files; those structures are modelled from the
spec's closed list of constraint kinds and the fields the dispatch code
in `Joint.cpp` reads and writes. All scalar quantities are rationals. -/

/-- A 2-by-2 matrix as a pair of rows (embeds `Mass22`/`Mat22`). -/
abbrev Mat22 : Type := Vec2 × Vec2

/-- Modelled from the spec: `DistanceJointConf` (header not in the
source tree) with its configuration fields, including the `frequency`
read and written by the dispatch code. -/
structure DistanceJointConf where
  bodyA : Nat := 0
  bodyB : Nat := 0
  collideConnected : Bool := false
  localAnchorA : Vec2 := (0, 0)
  localAnchorB : Vec2 := (0, 0)
  length : ℚ := 1
  frequency : ℚ := 0
  dampingRatio : ℚ := 0
deriving DecidableEq

/-- Modelled from the spec: `FrictionJointConf` (header not in the
source tree) with its configuration fields, including the solver-temp
`angularMass` read by the dispatch code. -/
structure FrictionJointConf where
  bodyA : Nat := 0
  bodyB : Nat := 0
  collideConnected : Bool := false
  localAnchorA : Vec2 := (0, 0)
  localAnchorB : Vec2 := (0, 0)
  maxForce : ℚ := 0
  maxTorque : ℚ := 0
  angularMass : ℚ := 0
deriving DecidableEq

/-- Modelled from the spec: `GearJointConf` (header not in the source
tree) with the `ratio` read by the dispatch code. -/
structure GearJointConf where
  bodyA : Nat := 0
  bodyB : Nat := 0
  collideConnected : Bool := false
  joint1 : Nat := 0
  joint2 : Nat := 0
  ratio : ℚ := 1
  constant : ℚ := 0
deriving DecidableEq

/-- Embeds `MotorJointConf` from `MotorJointConf.hpp`. -/
structure MotorJointConf where
  bodyA : Nat := 0
  bodyB : Nat := 0
  collideConnected : Bool := false
  linearOffset : Vec2 := (0, 0)
  angularOffset : ℚ := 0
  linearImpulse : Vec2 := (0, 0)
  angularImpulse : ℚ := 0
  maxForce : ℚ := 1
  maxTorque : ℚ := 1
  correctionFactor : ℚ := 3 / 10
  rA : Vec2 := (0, 0)
  rB : Vec2 := (0, 0)
  linearError : Vec2 := (0, 0)
  angularError : ℚ := 0
  linearMass : Mat22 := ((0, 0), (0, 0))
  angularMass : ℚ := 0
deriving DecidableEq

/-- Modelled from the spec: `PulleyJointConf` (header not in the source
tree) with the ground anchors and `ratio` read by the dispatch code. -/
structure PulleyJointConf where
  bodyA : Nat := 0
  bodyB : Nat := 0
  collideConnected : Bool := true
  groundAnchorA : Vec2 := (-1, 1)
  groundAnchorB : Vec2 := (1, 1)
  localAnchorA : Vec2 := (-1, 0)
  localAnchorB : Vec2 := (1, 0)
  lengthA : ℚ := 0
  lengthB : ℚ := 0
  ratio : ℚ := 1
deriving DecidableEq

/-- Modelled from the spec: `PrismaticJointConf` (header not in the
source tree) with the axis, limit, and motor fields dispatched on. -/
structure PrismaticJointConf where
  bodyA : Nat := 0
  bodyB : Nat := 0
  collideConnected : Bool := false
  localAnchorA : Vec2 := (0, 0)
  localAnchorB : Vec2 := (0, 0)
  localXAxisA : Vec2 := (1, 0)
  localYAxisA : Vec2 := (0, 1)
  referenceAngle : ℚ := 0
  enableLimit : Bool := false
  lowerTranslation : ℚ := 0
  upperTranslation : ℚ := 0
  enableMotor : Bool := false
  motorSpeed : ℚ := 0
  maxMotorForce : ℚ := 0
  motorImpulse : ℚ := 0
deriving DecidableEq

/-- Modelled from the spec: `RevoluteJointConf` (header not in the
source tree) with the limit and motor fields dispatched on. -/
structure RevoluteJointConf where
  bodyA : Nat := 0
  bodyB : Nat := 0
  collideConnected : Bool := false
  localAnchorA : Vec2 := (0, 0)
  localAnchorB : Vec2 := (0, 0)
  referenceAngle : ℚ := 0
  enableLimit : Bool := false
  lowerAngle : ℚ := 0
  upperAngle : ℚ := 0
  enableMotor : Bool := false
  motorSpeed : ℚ := 0
  maxMotorTorque : ℚ := 0
  angularMotorImpulse : ℚ := 0
  angularMass : ℚ := 0
deriving DecidableEq

/-- Embeds `TargetJointConf` from `TargetJointConf.hpp`. -/
structure TargetJointConf where
  bodyA : Nat := 0
  bodyB : Nat := 0
  collideConnected : Bool := false
  target : Vec2 := (0, 0)
  localAnchorB : Vec2 := (0, 0)
  maxForce : ℚ := 0
  frequency : ℚ := 5
  dampingRatio : ℚ := 7 / 10
  gamma : ℚ := 0
  impulse : Vec2 := (0, 0)
  rB : Vec2 := (0, 0)
  mass : Mat22 := ((0, 0), (0, 0))
  C : Vec2 := (0, 0)
deriving DecidableEq

/-- Modelled from the spec: `WeldJointConf` (header not in the source
tree) with the reference angle and frequency dispatched on. -/
structure WeldJointConf where
  bodyA : Nat := 0
  bodyB : Nat := 0
  collideConnected : Bool := false
  localAnchorA : Vec2 := (0, 0)
  localAnchorB : Vec2 := (0, 0)
  referenceAngle : ℚ := 0
  frequency : ℚ := 0
  dampingRatio : ℚ := 0
deriving DecidableEq

/-- Embeds `WheelJointConf` from `WheelJointConf.hpp`. -/
structure WheelJointConf where
  bodyA : Nat := 0
  bodyB : Nat := 0
  collideConnected : Bool := false
  localAnchorA : Vec2 := (0, 0)
  localAnchorB : Vec2 := (0, 0)
  localXAxisA : Vec2 := (1, 0)
  localYAxisA : Vec2 := (0, 1)
  enableMotor : Bool := false
  maxMotorTorque : ℚ := 0
  motorSpeed : ℚ := 0
  frequency : ℚ := 2
  dampingRatio : ℚ := 7 / 10
  impulse : ℚ := 0
  angularImpulse : ℚ := 0
  springImpulse : ℚ := 0
  ax : Vec2 := (0, 0)
  ay : Vec2 := (0, 0)
  sAx : ℚ := 0
  sBx : ℚ := 0
  sAy : ℚ := 0
  sBy : ℚ := 0
  mass : ℚ := 0
  angularMass : ℚ := 0
  springMass : ℚ := 0
  bias : ℚ := 0
  gamma : ℚ := 0
deriving DecidableEq

/-- The type-erased `Joint` value: per the spec's design note, the
runtime type-tag dispatch over the closed set of constraint kinds is
embedded as a closed sum over the known joint-conf kinds. -/
inductive Joint where
  | distance (conf : DistanceJointConf)
  | friction (conf : FrictionJointConf)
  | gear (conf : GearJointConf)
  | motor (conf : MotorJointConf)
  | pulley (conf : PulleyJointConf)
  | prismatic (conf : PrismaticJointConf)
  | revolute (conf : RevoluteJointConf)
  | target (conf : TargetJointConf)
  | weld (conf : WeldJointConf)
  | wheel (conf : WheelJointConf)
deriving DecidableEq

/-- Modelled from the spec: `GetAngularReaction` on a `WheelJointConf`
(used by the `GetAngularMotorImpulse` dispatch) yields the accumulated
angular impulse. -/
def WheelJointConf.GetAngularReaction (conf : WheelJointConf) : ℚ :=
  conf.angularImpulse

/-! ## Joint accessors (from `PlayRho/Dynamics/Joints/Joint.cpp`)

Each free function checks the runtime type of the `Joint` against the
kinds it supports, in the order of the source's if-chains, and throws
`std::invalid_argument` otherwise. Throwing accessors are embedded as
`Except String`; throwing mutators as state-passing functions returning
the (unchanged, on error) joint together with an optional error. -/

/-- Embeds `GetReferenceAngle(const Joint&)`. -/
def GetReferenceAngle (object : Joint) : Except String ℚ :=
  match object with
  | .revolute c => .ok c.referenceAngle
  | .prismatic c => .ok c.referenceAngle
  | .weld c => .ok c.referenceAngle
  | _ => .error "GetReferenceAngle not supported by joint type"

/-- Embeds `GetLocalXAxisA(const Joint&)`. -/
def GetLocalXAxisA (object : Joint) : Except String Vec2 :=
  match object with
  | .wheel c => .ok c.localXAxisA
  | .prismatic c => .ok c.localXAxisA
  | _ => .error "GetLocalXAxisA not supported by joint type"

/-- Embeds `GetLocalYAxisA(const Joint&)`. -/
def GetLocalYAxisA (object : Joint) : Except String Vec2 :=
  match object with
  | .wheel c => .ok c.localYAxisA
  | .prismatic c => .ok c.localYAxisA
  | _ => .error "GetLocalYAxisA not supported by joint type"

/-- Embeds `GetMotorSpeed(const Joint&)`. -/
def GetMotorSpeed (object : Joint) : Except String ℚ :=
  match object with
  | .revolute c => .ok c.motorSpeed
  | .prismatic c => .ok c.motorSpeed
  | .wheel c => .ok c.motorSpeed
  | _ => .error "GetMotorSpeed not supported by joint type"

/-- Embeds `SetMotorSpeed(Joint&, AngularVelocity)`. -/
def SetMotorSpeed (object : Joint) (value : ℚ) : Joint × Option String :=
  match object with
  | .revolute c => (.revolute { c with motorSpeed := value }, none)
  | .prismatic c => (.prismatic { c with motorSpeed := value }, none)
  | .wheel c => (.wheel { c with motorSpeed := value }, none)
  | _ => (object, some "SetMotorSpeed not supported by joint type!")

/-- Embeds `GetAngularMass(const Joint&)`. -/
def GetAngularMass (object : Joint) : Except String ℚ :=
  match object with
  | .friction c => .ok c.angularMass
  | .motor c => .ok c.angularMass
  | .revolute c => .ok c.angularMass
  | .wheel c => .ok c.angularMass
  | _ => .error "GetAngularMass not supported by joint type"

/-- Embeds `GetMaxMotorTorque(const Joint&)`. -/
def GetMaxMotorTorque (object : Joint) : Except String ℚ :=
  match object with
  | .revolute c => .ok c.maxMotorTorque
  | .wheel c => .ok c.maxMotorTorque
  | _ => .error "GetMaxMotorTorque not supported by joint type"

/-- Embeds `SetMaxMotorTorque(Joint&, Torque)`. -/
def SetMaxMotorTorque (object : Joint) (value : ℚ) : Joint × Option String :=
  match object with
  | .revolute c => (.revolute { c with maxMotorTorque := value }, none)
  | .wheel c => (.wheel { c with maxMotorTorque := value }, none)
  | _ => (object, some "SetMaxMotorTorque not supported by joint type!")

/-- Embeds `GetRatio(const Joint&)`. -/
def GetRatio (object : Joint) : Except String ℚ :=
  match object with
  | .gear c => .ok c.ratio
  | .pulley c => .ok c.ratio
  | _ => .error "GetRatio not supported by joint type!"

/-- Embeds `GetFrequency(const Joint&)`. -/
def GetFrequency (object : Joint) : Except String ℚ :=
  match object with
  | .distance c => .ok c.frequency
  | .target c => .ok c.frequency
  | .weld c => .ok c.frequency
  | .wheel c => .ok c.frequency
  | _ => .error "GetFrequency not supported by joint type"

/-- Embeds `SetFrequency(Joint&, Frequency)`. -/
def SetFrequency (object : Joint) (value : ℚ) : Joint × Option String :=
  match object with
  | .distance c => (.distance { c with frequency := value }, none)
  | .target c => (.target { c with frequency := value }, none)
  | .weld c => (.weld { c with frequency := value }, none)
  | .wheel c => (.wheel { c with frequency := value }, none)
  | _ => (object, some "SetFrequency not supported by joint type!")

/-- Embeds `GetAngularMotorImpulse(const Joint&)`: note the wheel case
returns the wheel conf's angular reaction, per the source. -/
def GetAngularMotorImpulse (object : Joint) : Except String ℚ :=
  match object with
  | .revolute c => .ok c.angularMotorImpulse
  | .wheel c => .ok c.GetAngularReaction
  | _ => .error "GetAngularMotorImpulse not supported by joint type"

/-- Embeds `GetTarget(const Joint&)`. -/
def GetTarget (object : Joint) : Except String Vec2 :=
  match object with
  | .target c => .ok c.target
  | _ => .error "GetTarget not supported by joint type"

/-- Embeds `SetTarget(Joint&, Length2)`. -/
def SetTarget (object : Joint) (value : Vec2) : Joint × Option String :=
  match object with
  | .target c => (.target { c with target := value }, none)
  | _ => (object, some "SetTarget not supported by joint type")

/-- Embeds `GetAngularLowerLimit(const Joint&)`. -/
def GetAngularLowerLimit (object : Joint) : Except String ℚ :=
  match object with
  | .revolute c => .ok c.lowerAngle
  | _ => .error "GetAngularLowerLimit not supported by joint type!"

/-- Embeds `GetAngularUpperLimit(const Joint&)`. -/
def GetAngularUpperLimit (object : Joint) : Except String ℚ :=
  match object with
  | .revolute c => .ok c.upperAngle
  | _ => .error "GetAngularUpperLimit not supported by joint type!"

/-- Embeds `SetAngularLimits(Joint&, Angle, Angle)`. -/
def SetAngularLimits (object : Joint) (lower upper : ℚ) : Joint × Option String :=
  match object with
  | .revolute c => (.revolute { c with lowerAngle := lower, upperAngle := upper }, none)
  | _ => (object, some "SetAngularLimits not supported by joint type!")

/-- Embeds `IsLimitEnabled(const Joint&)`. -/
def IsLimitEnabled (object : Joint) : Except String Bool :=
  match object with
  | .revolute c => .ok c.enableLimit
  | .prismatic c => .ok c.enableLimit
  | _ => .error "IsLimitEnabled not supported by joint type!"

/-- Embeds `EnableLimit(Joint&, bool)`. -/
def EnableLimit (object : Joint) (value : Bool) : Joint × Option String :=
  match object with
  | .revolute c => (.revolute { c with enableLimit := value }, none)
  | .prismatic c => (.prismatic { c with enableLimit := value }, none)
  | _ => (object, some "EnableLimit not supported by joint type!")

/-- Embeds `IsMotorEnabled(const Joint&)`. -/
def IsMotorEnabled (object : Joint) : Except String Bool :=
  match object with
  | .revolute c => .ok c.enableMotor
  | .prismatic c => .ok c.enableMotor
  | .wheel c => .ok c.enableMotor
  | _ => .error "IsMotorEnabled not supported by joint type!"

/-- Embeds `EnableMotor(Joint&, bool)`. -/
def EnableMotor (object : Joint) (value : Bool) : Joint × Option String :=
  match object with
  | .revolute c => (.revolute { c with enableMotor := value }, none)
  | .prismatic c => (.prismatic { c with enableMotor := value }, none)
  | .wheel c => (.wheel { c with enableMotor := value }, none)
  | _ => (object, some "EnableMotor not supported by joint type!")

/-- Embeds `GetLinearOffset(const Joint&)`. -/
def GetLinearOffset (object : Joint) : Except String Vec2 :=
  match object with
  | .motor c => .ok c.linearOffset
  | _ => .error "GetLinearOffset not supported by joint type!"

/-- Embeds `SetLinearOffset(Joint&, Length2)`. -/
def SetLinearOffset (object : Joint) (value : Vec2) : Joint × Option String :=
  match object with
  | .motor c => (.motor { c with linearOffset := value }, none)
  | _ => (object, some "SetLinearOffset not supported by joint type!")

/-- Embeds `GetAngularOffset(const Joint&)`. -/
def GetAngularOffset (object : Joint) : Except String ℚ :=
  match object with
  | .motor c => .ok c.angularOffset
  | _ => .error "GetAngularOffset not supported by joint type!"

/-- Embeds `SetAngularOffset(Joint&, Angle)`. -/
def SetAngularOffset (object : Joint) (value : ℚ) : Joint × Option String :=
  match object with
  | .motor c => (.motor { c with angularOffset := value }, none)
  | _ => (object, some "SetAngularOffset not supported by joint type!")

/-- Embeds `GetGroundAnchorA(const Joint&)`. -/
def GetGroundAnchorA (object : Joint) : Except String Vec2 :=
  match object with
  | .pulley c => .ok c.groundAnchorA
  | _ => .error "GetGroundAnchorA not supported by joint type!"

/-- Embeds `GetGroundAnchorB(const Joint&)`. -/
def GetGroundAnchorB (object : Joint) : Except String Vec2 :=
  match object with
  | .pulley c => .ok c.groundAnchorB
  | _ => .error "GetGroundAnchorB not supported by joint type!"

/-- Embeds `GetLinearMotorImpulse(const Joint&)`. -/
def GetLinearMotorImpulse (object : Joint) : Except String ℚ :=
  match object with
  | .prismatic c => .ok c.motorImpulse
  | _ => .error "GetLinearMotorImpulse not supported by joint type!"

/-! ## Supported-kind predicates for the dispatch set -/

/-- Joint kinds supporting the reference-angle accessor. -/
def supportsReferenceAngle : Joint → Bool
  | .revolute _ | .prismatic _ | .weld _ => true
  | _ => false

/-- Joint kinds supporting the local-axis accessors. -/
def supportsLocalAxisA : Joint → Bool
  | .wheel _ | .prismatic _ => true
  | _ => false

/-- Joint kinds supporting the motor-speed accessor and mutator. -/
def supportsMotorSpeed : Joint → Bool
  | .revolute _ | .prismatic _ | .wheel _ => true
  | _ => false

/-- Joint kinds supporting the angular-mass accessor. -/
def supportsAngularMass : Joint → Bool
  | .friction _ | .motor _ | .revolute _ | .wheel _ => true
  | _ => false

/-- Joint kinds supporting the max-motor-torque accessor and mutator,
and the angular-motor-impulse accessor. -/
def supportsMaxMotorTorque : Joint → Bool
  | .revolute _ | .wheel _ => true
  | _ => false

/-- Joint kinds supporting the ratio accessor. -/
def supportsRatio : Joint → Bool
  | .gear _ | .pulley _ => true
  | _ => false

/-- Joint kinds supporting the frequency accessor and mutator. -/
def supportsFrequency : Joint → Bool
  | .distance _ | .target _ | .weld _ | .wheel _ => true
  | _ => false

/-- Joint kinds supporting the target accessor and mutator. -/
def supportsTarget : Joint → Bool
  | .target _ => true
  | _ => false

/-- Joint kinds supporting the angular-limit accessors and mutator. -/
def supportsAngularLimits : Joint → Bool
  | .revolute _ => true
  | _ => false

/-- Joint kinds supporting the limit-enable accessor and mutator. -/
def supportsLimitEnable : Joint → Bool
  | .revolute _ | .prismatic _ => true
  | _ => false

/-- Joint kinds supporting the linear/angular offset accessors and
mutators. -/
def supportsOffsets : Joint → Bool
  | .motor _ => true
  | _ => false

/-- Joint kinds supporting the ground-anchor accessors. -/
def supportsGroundAnchors : Joint → Bool
  | .pulley _ => true
  | _ => false

/-- Joint kinds supporting the linear-motor-impulse accessor. -/
def supportsLinearMotorImpulse : Joint → Bool
  | .prismatic _ => true
  | _ => false

/-- C2: Every polymorphic joint accessor of the closed dispatch set
returns the configured value of the joint's conf when the joint's
runtime kind is one the accessor supports, and otherwise fails with the
explicit invalid-argument "not supported by joint type" error of the
source, for every joint value. -/
theorem jointAccessors_dispatch :
    (∀ c, GetReferenceAngle (.revolute c) = .ok c.referenceAngle) ∧
    (∀ c, GetReferenceAngle (.prismatic c) = .ok c.referenceAngle) ∧
    (∀ c, GetReferenceAngle (.weld c) = .ok c.referenceAngle) ∧
    (∀ j, supportsReferenceAngle j = false →
      GetReferenceAngle j = .error "GetReferenceAngle not supported by joint type") ∧
    (∀ c, GetLocalXAxisA (.wheel c) = .ok c.localXAxisA) ∧
    (∀ c, GetLocalXAxisA (.prismatic c) = .ok c.localXAxisA) ∧
    (∀ j, supportsLocalAxisA j = false →
      GetLocalXAxisA j = .error "GetLocalXAxisA not supported by joint type") ∧
    (∀ c, GetLocalYAxisA (.wheel c) = .ok c.localYAxisA) ∧
    (∀ c, GetLocalYAxisA (.prismatic c) = .ok c.localYAxisA) ∧
    (∀ j, supportsLocalAxisA j = false →
      GetLocalYAxisA j = .error "GetLocalYAxisA not supported by joint type") ∧
    (∀ c, GetMotorSpeed (.revolute c) = .ok c.motorSpeed) ∧
    (∀ c, GetMotorSpeed (.prismatic c) = .ok c.motorSpeed) ∧
    (∀ c, GetMotorSpeed (.wheel c) = .ok c.motorSpeed) ∧
    (∀ j, supportsMotorSpeed j = false →
      GetMotorSpeed j = .error "GetMotorSpeed not supported by joint type") ∧
    (∀ c, GetAngularMass (.friction c) = .ok c.angularMass) ∧
    (∀ c, GetAngularMass (.motor c) = .ok c.angularMass) ∧
    (∀ c, GetAngularMass (.revolute c) = .ok c.angularMass) ∧
    (∀ c, GetAngularMass (.wheel c) = .ok c.angularMass) ∧
    (∀ j, supportsAngularMass j = false →
      GetAngularMass j = .error "GetAngularMass not supported by joint type") ∧
    (∀ c, GetMaxMotorTorque (.revolute c) = .ok c.maxMotorTorque) ∧
    (∀ c, GetMaxMotorTorque (.wheel c) = .ok c.maxMotorTorque) ∧
    (∀ j, supportsMaxMotorTorque j = false →
      GetMaxMotorTorque j = .error "GetMaxMotorTorque not supported by joint type") ∧
    (∀ c, GetRatio (.gear c) = .ok c.ratio) ∧
    (∀ c, GetRatio (.pulley c) = .ok c.ratio) ∧
    (∀ j, supportsRatio j = false →
      GetRatio j = .error "GetRatio not supported by joint type!") ∧
    (∀ c, GetFrequency (.distance c) = .ok c.frequency) ∧
    (∀ c, GetFrequency (.target c) = .ok c.frequency) ∧
    (∀ c, GetFrequency (.weld c) = .ok c.frequency) ∧
    (∀ c, GetFrequency (.wheel c) = .ok c.frequency) ∧
    (∀ j, supportsFrequency j = false →
      GetFrequency j = .error "GetFrequency not supported by joint type") ∧
    (∀ c, GetAngularMotorImpulse (.revolute c) = .ok c.angularMotorImpulse) ∧
    (∀ c, GetAngularMotorImpulse (.wheel c) = .ok c.angularImpulse) ∧
    (∀ j, supportsMaxMotorTorque j = false →
      GetAngularMotorImpulse j = .error "GetAngularMotorImpulse not supported by joint type") ∧
    (∀ c, GetTarget (.target c) = .ok c.target) ∧
    (∀ j, supportsTarget j = false →
      GetTarget j = .error "GetTarget not supported by joint type") ∧
    (∀ c, GetAngularLowerLimit (.revolute c) = .ok c.lowerAngle) ∧
    (∀ j, supportsAngularLimits j = false →
      GetAngularLowerLimit j = .error "GetAngularLowerLimit not supported by joint type!") ∧
    (∀ c, GetAngularUpperLimit (.revolute c) = .ok c.upperAngle) ∧
    (∀ j, supportsAngularLimits j = false →
      GetAngularUpperLimit j = .error "GetAngularUpperLimit not supported by joint type!") ∧
    (∀ c, IsLimitEnabled (.revolute c) = .ok c.enableLimit) ∧
    (∀ c, IsLimitEnabled (.prismatic c) = .ok c.enableLimit) ∧
    (∀ j, supportsLimitEnable j = false →
      IsLimitEnabled j = .error "IsLimitEnabled not supported by joint type!") ∧
    (∀ c, IsMotorEnabled (.revolute c) = .ok c.enableMotor) ∧
    (∀ c, IsMotorEnabled (.prismatic c) = .ok c.enableMotor) ∧
    (∀ c, IsMotorEnabled (.wheel c) = .ok c.enableMotor) ∧
    (∀ j, supportsMotorSpeed j = false →
      IsMotorEnabled j = .error "IsMotorEnabled not supported by joint type!") ∧
    (∀ c, GetLinearOffset (.motor c) = .ok c.linearOffset) ∧
    (∀ j, supportsOffsets j = false →
      GetLinearOffset j = .error "GetLinearOffset not supported by joint type!") ∧
    (∀ c, GetAngularOffset (.motor c) = .ok c.angularOffset) ∧
    (∀ j, supportsOffsets j = false →
      GetAngularOffset j = .error "GetAngularOffset not supported by joint type!") ∧
    (∀ c, GetGroundAnchorA (.pulley c) = .ok c.groundAnchorA) ∧
    (∀ j, supportsGroundAnchors j = false →
      GetGroundAnchorA j = .error "GetGroundAnchorA not supported by joint type!") ∧
    (∀ c, GetGroundAnchorB (.pulley c) = .ok c.groundAnchorB) ∧
    (∀ j, supportsGroundAnchors j = false →
      GetGroundAnchorB j = .error "GetGroundAnchorB not supported by joint type!") ∧
    (∀ c, GetLinearMotorImpulse (.prismatic c) = .ok c.motorImpulse) ∧
    (∀ j, supportsLinearMotorImpulse j = false →
      GetLinearMotorImpulse j = .error "GetLinearMotorImpulse not supported by joint type!") := by
  refine ⟨fun c => rfl, fun c => rfl, fun c => rfl, fun j h => ?_,
    fun c => rfl, fun c => rfl, fun j h => ?_,
    fun c => rfl, fun c => rfl, fun j h => ?_,
    fun c => rfl, fun c => rfl, fun c => rfl, fun j h => ?_,
    fun c => rfl, fun c => rfl, fun c => rfl, fun c => rfl, fun j h => ?_,
    fun c => rfl, fun c => rfl, fun j h => ?_,
    fun c => rfl, fun c => rfl, fun j h => ?_,
    fun c => rfl, fun c => rfl, fun c => rfl, fun c => rfl, fun j h => ?_,
    fun c => rfl, fun c => rfl, fun j h => ?_,
    fun c => rfl, fun j h => ?_,
    fun c => rfl, fun j h => ?_,
    fun c => rfl, fun j h => ?_,
    fun c => rfl, fun c => rfl, fun j h => ?_,
    fun c => rfl, fun c => rfl, fun c => rfl, fun j h => ?_,
    fun c => rfl, fun j h => ?_,
    fun c => rfl, fun j h => ?_,
    fun c => rfl, fun j h => ?_,
    fun c => rfl, fun j h => ?_,
    fun c => rfl, fun j h => ?_⟩ <;>
  cases j <;>
  simp_all [GetReferenceAngle, GetLocalXAxisA, GetLocalYAxisA, GetMotorSpeed,
    GetAngularMass, GetMaxMotorTorque, GetRatio, GetFrequency, GetAngularMotorImpulse,
    GetTarget, GetAngularLowerLimit, GetAngularUpperLimit, IsLimitEnabled, IsMotorEnabled,
    GetLinearOffset, GetAngularOffset, GetGroundAnchorA, GetGroundAnchorB,
    GetLinearMotorImpulse, supportsReferenceAngle, supportsLocalAxisA, supportsMotorSpeed,
    supportsAngularMass, supportsMaxMotorTorque, supportsRatio, supportsFrequency,
    supportsTarget, supportsAngularLimits, supportsLimitEnable, supportsOffsets,
    supportsGroundAnchors, supportsLinearMotorImpulse]

/-- Witness for the C2 theorem at a concrete joint: a target joint does
not support the reference-angle accessor and gets the named error. -/
theorem jointAccessors_dispatch_witness :
    GetReferenceAngle (Joint.target {}) = .error "GetReferenceAngle not supported by joint type" :=
  jointAccessors_dispatch.2.2.2.1 (Joint.target {}) (by decide)

/-- C9: Every polymorphic joint mutator either succeeds on a supported
kind — replacing the joint by the same kind's conf with exactly the
targeted configuration field(s) updated — or fails on an unsupported
kind with the named error while returning the joint exactly as it was
(atomicity on error). -/
theorem jointMutators_atomic :
    (∀ c v, SetMotorSpeed (.revolute c) v = (.revolute { c with motorSpeed := v }, none)) ∧
    (∀ c v, SetMotorSpeed (.prismatic c) v = (.prismatic { c with motorSpeed := v }, none)) ∧
    (∀ c v, SetMotorSpeed (.wheel c) v = (.wheel { c with motorSpeed := v }, none)) ∧
    (∀ (j : Joint) (v : ℚ), supportsMotorSpeed j = false →
      SetMotorSpeed j v = (j, some "SetMotorSpeed not supported by joint type!")) ∧
    (∀ c v, SetMaxMotorTorque (.revolute c) v = (.revolute { c with maxMotorTorque := v }, none)) ∧
    (∀ c v, SetMaxMotorTorque (.wheel c) v = (.wheel { c with maxMotorTorque := v }, none)) ∧
    (∀ (j : Joint) (v : ℚ), supportsMaxMotorTorque j = false →
      SetMaxMotorTorque j v = (j, some "SetMaxMotorTorque not supported by joint type!")) ∧
    (∀ c v, SetFrequency (.distance c) v = (.distance { c with frequency := v }, none)) ∧
    (∀ c v, SetFrequency (.target c) v = (.target { c with frequency := v }, none)) ∧
    (∀ c v, SetFrequency (.weld c) v = (.weld { c with frequency := v }, none)) ∧
    (∀ c v, SetFrequency (.wheel c) v = (.wheel { c with frequency := v }, none)) ∧
    (∀ (j : Joint) (v : ℚ), supportsFrequency j = false →
      SetFrequency j v = (j, some "SetFrequency not supported by joint type!")) ∧
    (∀ c v, SetTarget (.target c) v = (.target { c with target := v }, none)) ∧
    (∀ (j : Joint) (v : Vec2), supportsTarget j = false →
      SetTarget j v = (j, some "SetTarget not supported by joint type")) ∧
    (∀ c lo hi, SetAngularLimits (.revolute c) lo hi =
      (.revolute { c with lowerAngle := lo, upperAngle := hi }, none)) ∧
    (∀ (j : Joint) (lo hi : ℚ), supportsAngularLimits j = false →
      SetAngularLimits j lo hi = (j, some "SetAngularLimits not supported by joint type!")) ∧
    (∀ c v, EnableLimit (.revolute c) v = (.revolute { c with enableLimit := v }, none)) ∧
    (∀ c v, EnableLimit (.prismatic c) v = (.prismatic { c with enableLimit := v }, none)) ∧
    (∀ (j : Joint) (v : Bool), supportsLimitEnable j = false →
      EnableLimit j v = (j, some "EnableLimit not supported by joint type!")) ∧
    (∀ c v, EnableMotor (.revolute c) v = (.revolute { c with enableMotor := v }, none)) ∧
    (∀ c v, EnableMotor (.prismatic c) v = (.prismatic { c with enableMotor := v }, none)) ∧
    (∀ c v, EnableMotor (.wheel c) v = (.wheel { c with enableMotor := v }, none)) ∧
    (∀ (j : Joint) (v : Bool), supportsMotorSpeed j = false →
      EnableMotor j v = (j, some "EnableMotor not supported by joint type!")) ∧
    (∀ c v, SetLinearOffset (.motor c) v = (.motor { c with linearOffset := v }, none)) ∧
    (∀ (j : Joint) (v : Vec2), supportsOffsets j = false →
      SetLinearOffset j v = (j, some "SetLinearOffset not supported by joint type!")) ∧
    (∀ c v, SetAngularOffset (.motor c) v = (.motor { c with angularOffset := v }, none)) ∧
    (∀ (j : Joint) (v : ℚ), supportsOffsets j = false →
      SetAngularOffset j v = (j, some "SetAngularOffset not supported by joint type!")) := by
  refine ⟨fun c v => rfl, fun c v => rfl, fun c v => rfl, fun j v h => ?_,
    fun c v => rfl, fun c v => rfl, fun j v h => ?_,
    fun c v => rfl, fun c v => rfl, fun c v => rfl, fun c v => rfl, fun j v h => ?_,
    fun c v => rfl, fun j v h => ?_,
    fun c lo hi => rfl, fun j lo hi h => ?_,
    fun c v => rfl, fun c v => rfl, fun j v h => ?_,
    fun c v => rfl, fun c v => rfl, fun c v => rfl, fun j v h => ?_,
    fun c v => rfl, fun j v h => ?_,
    fun c v => rfl, fun j v h => ?_⟩ <;>
  cases j <;>
  simp_all [SetMotorSpeed, SetMaxMotorTorque, SetFrequency, SetTarget, SetAngularLimits,
    EnableLimit, EnableMotor, SetLinearOffset, SetAngularOffset, supportsMotorSpeed,
    supportsMaxMotorTorque, supportsFrequency, supportsTarget, supportsAngularLimits,
    supportsLimitEnable, supportsOffsets]

/-- Witness for the C9 theorem at a concrete joint: setting the motor
speed of a target joint fails with the named error and leaves the joint
unchanged. -/
theorem jointMutators_atomic_witness :
    SetMotorSpeed (Joint.target {}) 1 =
      (Joint.target {}, some "SetMotorSpeed not supported by joint type!") :=
  jointMutators_atomic.2.2.2.1 (Joint.target {}) 1 (by decide)

/-! ## ShiftOrigin (joint coordinate rebasing) -/

/-- Embeds `ShiftOrigin(TargetJointConf&, Length2)` from
`TargetJointConf.hpp`: `object.target -= newOrigin; return true`. -/
def TargetJointConf.ShiftOrigin (object : TargetJointConf) (newOrigin : Vec2) :
    TargetJointConf × Bool :=
  ({ object with target := vsub object.target newOrigin }, true)

/-- Embeds `ShiftOrigin(MotorJointConf&, Length2)` from
`MotorJointConf.hpp`: no-op returning `false`. -/
def MotorJointConf.ShiftOrigin (object : MotorJointConf) (_ : Vec2) :
    MotorJointConf × Bool :=
  (object, false)

/-- Embeds `ShiftOrigin(WheelJointConf&, Length2)` from
`WheelJointConf.hpp`: no-op returning `false`. -/
def WheelJointConf.ShiftOrigin (object : WheelJointConf) (_ : Vec2) :
    WheelJointConf × Bool :=
  (object, false)

/-- Modelled from the spec: `ShiftOrigin(PrismaticJointConf&, Length2)`
(header not in the source tree); the unit test expects it to return
`false`, and prismatic joints hold no world coordinates, so it is a
no-op like the motor and wheel cases. -/
def PrismaticJointConf.ShiftOrigin (object : PrismaticJointConf) (_ : Vec2) :
    PrismaticJointConf × Bool :=
  (object, false)

/-- C7: `ShiftOrigin` is a pure coordinate rebasing: for a target joint
conf it subtracts the new origin from the `target` field, changes no
other field, and returns `true`; for the joint kinds holding no world
coordinates (motor, wheel, prismatic) it changes nothing and returns
`false`. -/
theorem shiftOrigin_pure_rebase (tc : TargetJointConf) (mc : MotorJointConf)
    (wc : WheelJointConf) (pc : PrismaticJointConf) (newOrigin : Vec2) :
    ((tc.ShiftOrigin newOrigin).2 = true ∧
     (tc.ShiftOrigin newOrigin).1.target = vsub tc.target newOrigin ∧
     (tc.ShiftOrigin newOrigin).1.bodyA = tc.bodyA ∧
     (tc.ShiftOrigin newOrigin).1.bodyB = tc.bodyB ∧
     (tc.ShiftOrigin newOrigin).1.collideConnected = tc.collideConnected ∧
     (tc.ShiftOrigin newOrigin).1.localAnchorB = tc.localAnchorB ∧
     (tc.ShiftOrigin newOrigin).1.maxForce = tc.maxForce ∧
     (tc.ShiftOrigin newOrigin).1.frequency = tc.frequency ∧
     (tc.ShiftOrigin newOrigin).1.dampingRatio = tc.dampingRatio ∧
     (tc.ShiftOrigin newOrigin).1.gamma = tc.gamma ∧
     (tc.ShiftOrigin newOrigin).1.impulse = tc.impulse ∧
     (tc.ShiftOrigin newOrigin).1.rB = tc.rB ∧
     (tc.ShiftOrigin newOrigin).1.mass = tc.mass ∧
     (tc.ShiftOrigin newOrigin).1.C = tc.C) ∧
    mc.ShiftOrigin newOrigin = (mc, false) ∧
    wc.ShiftOrigin newOrigin = (wc, false) ∧
    pc.ShiftOrigin newOrigin = (pc, false) := by
  refine ⟨⟨rfl, rfl, rfl, rfl, rfl, rfl, rfl, rfl, rfl, rfl, rfl, rfl, rfl, rfl⟩,
    rfl, rfl, rfl⟩

/-! ## World step-lock state machine

Modelled from the spec: the `WorldImpl` implementation is not among the
source files; `World.hpp` declares the operations and documents each
structural mutation as throwing `WrongState` while the world is locked
(during a step). The spec requires such calls to be "rejected, step
integrity preserved". The world is modelled by its structural
containers plus the lock flag; every structural mutation first checks
the lock and fails without touching anything when it is set. -/

/-- The error kinds a world operation can raise. -/
inductive WorldError where
  | WrongState
  | InvalidArgument
deriving DecidableEq

/-- Modelled from the spec: the structural state of a world — bodies
(with positions), fixtures (attached to a body), joints, the fresh-id
counter, and the lock flag set for the duration of `Step`. -/
structure WorldModel where
  locked : Bool
  bodies : List (Nat × Vec2)
  fixtures : List (Nat × Nat)
  joints : List Nat
  nextId : Nat
deriving DecidableEq

/-- Modelled from the spec: `CreateBody` throws `WrongState` when the
world is locked, otherwise adds a body at the origin. -/
def WorldModel.CreateBody (w : WorldModel) : WorldModel × Except WorldError Nat :=
  if w.locked then (w, .error .WrongState)
  else ({ w with bodies := w.bodies ++ [(w.nextId, (0, 0))], nextId := w.nextId + 1 },
        .ok w.nextId)

/-- Modelled from the spec: `Destroy(BodyID)` throws `WrongState` when
the world is locked, otherwise removes the body and its fixtures. -/
def WorldModel.DestroyBody (w : WorldModel) (bodyId : Nat) : WorldModel × Option WorldError :=
  if w.locked then (w, some .WrongState)
  else ({ w with bodies := w.bodies.filter (fun b => ! (b.1 == bodyId)),
                 fixtures := w.fixtures.filter (fun f => ! (f.2 == bodyId)) }, none)

/-- Modelled from the spec: `CreateFixture` throws `WrongState` when
the world is locked, otherwise attaches a fixture to the given body. -/
def WorldModel.CreateFixture (w : WorldModel) (bodyId : Nat) :
    WorldModel × Except WorldError Nat :=
  if w.locked then (w, .error .WrongState)
  else ({ w with fixtures := w.fixtures ++ [(w.nextId, bodyId)], nextId := w.nextId + 1 },
        .ok w.nextId)

/-- Modelled from the spec: fixture destruction throws `WrongState`
when the world is locked, otherwise removes the fixture. -/
def WorldModel.DestroyFixture (w : WorldModel) (fixtureId : Nat) :
    WorldModel × Option WorldError :=
  if w.locked then (w, some .WrongState)
  else ({ w with fixtures := w.fixtures.filter (fun f => ! (f.1 == fixtureId)) }, none)

/-- Modelled from the spec: `CreateJoint` throws `WrongState` when the
world is locked, otherwise adds a joint. -/
def WorldModel.CreateJoint (w : WorldModel) : WorldModel × Except WorldError Nat :=
  if w.locked then (w, .error .WrongState)
  else ({ w with joints := w.joints ++ [w.nextId], nextId := w.nextId + 1 }, .ok w.nextId)

/-- Modelled from the spec: `Destroy(JointID)` throws `WrongState` when
the world is locked, otherwise removes the joint. -/
def WorldModel.DestroyJoint (w : WorldModel) (jointId : Nat) : WorldModel × Option WorldError :=
  if w.locked then (w, some .WrongState)
  else ({ w with joints := w.joints.filter (fun j => ! (j == jointId)) }, none)

/-- Modelled from the spec: `World::ShiftOrigin` throws `WrongState`
when the world is locked, otherwise rebases every body position by
`position -= newOrigin`. -/
def WorldModel.ShiftOrigin (w : WorldModel) (newOrigin : Vec2) : WorldModel × Option WorldError :=
  if w.locked then (w, some .WrongState)
  else ({ w with bodies := w.bodies.map (fun b => (b.1, vsub b.2 newOrigin)) }, none)

/-- C4: While the world is locked (a step is in progress), every
structural mutation — create/destroy of a body, fixture, or joint, and
`ShiftOrigin` — fails with the distinct `WrongState` error and leaves
the world unchanged; when the world is not locked, none of these
operations raises `WrongState`. -/
theorem worldLocked_structural_mutations_rejected (w : WorldModel)
    (bodyId fixtureId jointId attachBodyId : Nat) (newOrigin : Vec2) :
    (w.locked = true →
      w.CreateBody = (w, .error .WrongState) ∧
      w.DestroyBody bodyId = (w, some .WrongState) ∧
      w.CreateFixture attachBodyId = (w, .error .WrongState) ∧
      w.DestroyFixture fixtureId = (w, some .WrongState) ∧
      w.CreateJoint = (w, .error .WrongState) ∧
      w.DestroyJoint jointId = (w, some .WrongState) ∧
      w.ShiftOrigin newOrigin = (w, some .WrongState)) ∧
    (w.locked = false →
      w.CreateBody.2 ≠ .error .WrongState ∧
      (w.DestroyBody bodyId).2 ≠ some .WrongState ∧
      (w.CreateFixture attachBodyId).2 ≠ .error .WrongState ∧
      (w.DestroyFixture fixtureId).2 ≠ some .WrongState ∧
      w.CreateJoint.2 ≠ .error .WrongState ∧
      (w.DestroyJoint jointId).2 ≠ some .WrongState ∧
      (w.ShiftOrigin newOrigin).2 ≠ some .WrongState) := by
  constructor
  · intro h
    refine ⟨?_, ?_, ?_, ?_, ?_, ?_, ?_⟩ <;>
      simp [WorldModel.CreateBody, WorldModel.DestroyBody, WorldModel.CreateFixture,
        WorldModel.DestroyFixture, WorldModel.CreateJoint, WorldModel.DestroyJoint,
        WorldModel.ShiftOrigin, h]
  · intro h
    refine ⟨?_, ?_, ?_, ?_, ?_, ?_, ?_⟩ <;>
      simp [WorldModel.CreateBody, WorldModel.DestroyBody, WorldModel.CreateFixture,
        WorldModel.DestroyFixture, WorldModel.CreateJoint, WorldModel.DestroyJoint,
        WorldModel.ShiftOrigin, h]

/-- Witness for the C4 theorem at concrete worlds: a locked world
rejects `CreateBody` with `WrongState` unchanged, and an unlocked world
does not raise `WrongState` on `ShiftOrigin`. -/
theorem worldLocked_structural_mutations_rejected_witness :
    (WorldModel.CreateBody ⟨true, [], [], [], 0⟩ =
      (⟨true, [], [], [], 0⟩, .error .WrongState)) ∧
    (WorldModel.ShiftOrigin ⟨false, [(0, (1, 1))], [], [], 1⟩ (1, 0)).2 ≠ some .WrongState :=
  ⟨((worldLocked_structural_mutations_rejected ⟨true, [], [], [], 0⟩ 0 0 0 0 (0, 0)).1 rfl).1,
   ((worldLocked_structural_mutations_rejected ⟨false, [(0, (1, 1))], [], [], 1⟩
      0 0 0 0 (1, 0)).2 rfl).2.2.2.2.2.2⟩

/-! ## Checked negative values (from `playrho/Negative.hpp`) -/

/-- Embeds `NegativeChecker<T>::operator()`: accepts (no message)
exactly the values strictly less than zero, and reports
"value not less than zero" otherwise. -/
def NegativeChecker {α : Type} [Zero α] [LT α]
    [DecidableRel ((· < ·) : α → α → Prop)] (v : α) : Option String :=
  if ¬ (v < 0) then some "value not less than zero" else none

/-- Embeds `Negative<T> = CheckedValue<T, NegativeChecker<T>>`: the
values the checker accepts. (`CheckedValue.hpp` is not in the source
tree; modelled from the spec as the checker-validated subtype.) -/
def Negative (α : Type) [Zero α] [LT α]
    [DecidableRel ((· < ·) : α → α → Prop)] : Type :=
  { v : α // NegativeChecker v = none }

/-- Modelled from the spec: a default-construction attempt for
`Negative<int>` — it validates the value-type's default value `0` and
yields nothing when the checker rejects it, mirroring
`static_assert(!std::is_default_constructible<Negative<int>>::value)`. -/
def negativeIntDefault : Option (Negative ℤ) :=
  if h : NegativeChecker (0 : ℤ) = none then some ⟨0, h⟩ else none

/-- C10: `NegativeChecker` accepts exactly the strictly negative
values, rejecting others with the message "value not less than zero";
hence every constructed `Negative` value is strictly negative, and
`Negative<int>` has no default constructor (the default value `0` is
rejected). -/
theorem negativeChecker_accepts_iff_negative :
    (∀ {α : Type} [Zero α] [LT α] [DecidableRel ((· < ·) : α → α → Prop)] (v : α),
      (NegativeChecker v = none ↔ v < 0) ∧
      (¬ v < 0 → NegativeChecker v = some "value not less than zero")) ∧
    (∀ x : Negative ℤ, x.val < 0) ∧
    negativeIntDefault = none := by
  refine ⟨?_, ?_, ?_⟩
  · intro α _ _ _ v
    constructor
    · constructor
      · intro h
        by_contra hneg
        simp [NegativeChecker, hneg] at h
      · intro h
        simp [NegativeChecker, h]
    · intro h
      simp [NegativeChecker, h]
  · intro x
    have h := x.property
    by_contra hneg
    simp [NegativeChecker, hneg] at h
  · simp [negativeIntDefault, NegativeChecker]

/-- Witness for the C10 theorem at concrete values: `-1` is accepted
and `0` is rejected with the message. -/
theorem negativeChecker_accepts_iff_negative_witness :
    NegativeChecker (-1 : ℤ) = none ∧
    NegativeChecker (0 : ℤ) = some "value not less than zero" :=
  ⟨(negativeChecker_accepts_iff_negative.1 (-1 : ℤ)).1.mpr (by decide),
   (negativeChecker_accepts_iff_negative.1 (0 : ℤ)).2 (by decide)⟩

/-! ## Narrow-phase GJK distance

Modelled from the spec: the `Distance` implementation is not among the
source files (only its unit tests are). The spec describes it as a
GJK-style solver over a simplex of 1–3 support-point index pairs: each
iteration computes the closest point of the simplex to the origin in
Minkowski-difference space, terminates when no improvement is possible
or a support point repeats (converged, not an error), warm-starts from
a cached index-pair set validated by the cached metric, and returns
witness points between the core point sets before vertex-radius
expansion, with the iteration count bounded by a configured maximum.
Lengths are kept squared where a metric is needed, since `ℚ` lacks
square roots; the concrete reference-fixture results in the unit tests
pin the remaining choices down. -/

/-- A rigid transformation: translation plus rotation (cosine/sine). -/
structure Transformation where
  p : Vec2
  qc : ℚ
  qs : ℚ
deriving DecidableEq

/-- The identity transformation (`Transform_identity`). -/
def Transform_identity : Transformation := ⟨(0, 0), 1, 0⟩

/-- Applies a transformation to a point: rotate then translate. -/
def applyT (xf : Transformation) (v : Vec2) : Vec2 :=
  (xf.qc * v.1 - xf.qs * v.2 + xf.p.1, xf.qs * v.1 + xf.qc * v.2 + xf.p.2)

/-- Applies the inverse of a transformation's rotation to a vector. -/
def invRotate (xf : Transformation) (v : Vec2) : Vec2 :=
  (xf.qc * v.1 + xf.qs * v.2, -xf.qs * v.1 + xf.qc * v.2)

/-- An immutable view over a convex point set plus a non-negative
vertex radius (embeds `DistanceProxy`). -/
structure DistanceProxy where
  vertexRadius : ℚ
  vertices : List Vec2
deriving DecidableEq

/-- The proxy's vertex at an index (out-of-range yields the origin;
callers stay in range). -/
def DistanceProxy.GetVertex (dp : DistanceProxy) (i : Nat) : Vec2 :=
  dp.vertices.getD i (0, 0)

/-- The first index of a proxy vertex maximizing the dot product with
the direction (a later vertex replaces the best only when strictly
greater, keeping the first maximum). -/
def DistanceProxy.GetSupport (dp : DistanceProxy) (d : Vec2) : Nat :=
  (List.range dp.vertices.length).foldl
    (fun best i => if vdot (dp.GetVertex i) d > vdot (dp.GetVertex best) d then i else best) 0

/-- One simplex vertex: the two support points, their indices, their
Minkowski difference, and a barycentric coefficient. -/
structure SimplexVertex where
  wA : Vec2
  indexA : Nat
  wB : Vec2
  indexB : Nat
  w : Vec2
  a : ℚ
deriving DecidableEq

/-- A simplex of 1–3 support-point vertices. -/
abbrev Simplex := List SimplexVertex

/-- One cached index pair (embeds `IndexPair`). -/
structure IndexPair where
  a : Nat
  b : Nat
deriving DecidableEq

/-- The simplex cache: the cached metric (kept squared for lengths),
the index pairs, and the metric-set flag (embeds `SimplexCache`). -/
structure SimplexCache where
  metric : ℚ
  indexPairs : List IndexPair
  metricSet : Bool
deriving DecidableEq

/-- An empty simplex cache (metric unset, no index pairs). -/
def emptySimplexCache : SimplexCache := ⟨0, [], false⟩

/-- Builds a simplex vertex from a pair of support indices. -/
def mkSimplexVertex (pA pB : DistanceProxy) (xfA xfB : Transformation)
    (ia ib : Nat) : SimplexVertex :=
  let wA := applyT xfA (pA.GetVertex ia)
  let wB := applyT xfB (pB.GetVertex ib)
  ⟨wA, ia, wB, ib, vsub wA wB, 1⟩

/-- The barycentric closest-point solve for a 2-simplex (line segment):
keep the vertex region the origin projects into, or the edge with
interior barycentric coordinates. -/
def solve2 (v1 v2 : SimplexVertex) : Simplex :=
  let w1 := v1.w
  let w2 := v2.w
  let e12 := vsub w2 w1
  let d12_2 := -(vdot w1 e12)
  if d12_2 ≤ 0 then [{ v1 with a := 1 }]
  else
    let d12_1 := vdot w2 e12
    if d12_1 ≤ 0 then [{ v2 with a := 1 }]
    else
      let inv := 1 / (d12_1 + d12_2)
      [{ v1 with a := d12_1 * inv }, { v2 with a := d12_2 * inv }]

/-- The barycentric closest-point solve for a 3-simplex (triangle):
test the vertex, edge, and interior regions of the origin in barycentric
coordinates and keep the supporting sub-simplex. -/
def solve3 (v1 v2 v3 : SimplexVertex) : Simplex :=
  let w1 := v1.w
  let w2 := v2.w
  let w3 := v3.w
  let e12 := vsub w2 w1
  let d12_1 := vdot w2 e12
  let d12_2 := -(vdot w1 e12)
  let e13 := vsub w3 w1
  let d13_1 := vdot w3 e13
  let d13_2 := -(vdot w1 e13)
  let e23 := vsub w3 w2
  let d23_1 := vdot w3 e23
  let d23_2 := -(vdot w2 e23)
  let n123 := vcross e12 e13
  let d123_1 := n123 * vcross w2 w3
  let d123_2 := n123 * vcross w3 w1
  let d123_3 := n123 * vcross w1 w2
  if d12_2 ≤ 0 ∧ d13_2 ≤ 0 then [{ v1 with a := 1 }]
  else if 0 < d12_1 ∧ 0 < d12_2 ∧ d123_3 ≤ 0 then
    let inv := 1 / (d12_1 + d12_2)
    [{ v1 with a := d12_1 * inv }, { v2 with a := d12_2 * inv }]
  else if 0 < d13_1 ∧ 0 < d13_2 ∧ d123_2 ≤ 0 then
    let inv := 1 / (d13_1 + d13_2)
    [{ v1 with a := d13_1 * inv }, { v3 with a := d13_2 * inv }]
  else if d12_1 ≤ 0 ∧ d23_2 ≤ 0 then [{ v2 with a := 1 }]
  else if d13_1 ≤ 0 ∧ d23_1 ≤ 0 then [{ v3 with a := 1 }]
  else if 0 < d23_1 ∧ 0 < d23_2 ∧ d123_1 ≤ 0 then
    let inv := 1 / (d23_1 + d23_2)
    [{ v3 with a := d23_2 * inv }, { v2 with a := d23_1 * inv }]
  else
    let inv := 1 / (d123_1 + d123_2 + d123_3)
    [{ v1 with a := d123_1 * inv }, { v2 with a := d123_2 * inv },
     { v3 with a := d123_3 * inv }]

/-- Solves the current simplex for the closest point to the origin. -/
def solveSimplex : Simplex → Simplex
  | [v1, v2] => solve2 v1 v2
  | [v1, v2, v3] => solve3 v1 v2 v3
  | s => s

/-- The direction in which to search for the next support point. -/
def searchDirection : Simplex → Vec2
  | [v] => vneg v.w
  | [v1, v2] =>
      let e12 := vsub v2.w v1.w
      let sgn := vcross e12 (vneg v1.w)
      if 0 < sgn then scross 1 e12 else vcrossS e12 1
  | _ => (0, 0)

/-- The witness points between the two core point sets determined by
the solved simplex's barycentric coordinates (before vertex-radius
expansion). -/
def witnessPoints : Simplex → Vec2 × Vec2
  | [v] => (v.wA, v.wB)
  | [v1, v2] =>
      (vadd (vsmul v1.a v1.wA) (vsmul v2.a v2.wA),
       vadd (vsmul v1.a v1.wB) (vsmul v2.a v2.wB))
  | [v1, v2, v3] =>
      let pA := vadd (vadd (vsmul v1.a v1.wA) (vsmul v2.a v2.wA)) (vsmul v3.a v3.wA)
      (pA, pA)
  | _ => ((0, 0), (0, 0))

/-- The simplex's size metric used to detect degenerate or stale
simplices: 0 for a point, squared edge length for a segment, signed
area for a triangle. -/
def simplexMetric : Simplex → ℚ
  | [_] => 0
  | [v1, v2] => vdot (vsub v2.w v1.w) (vsub v2.w v1.w)
  | [v1, v2, v3] => vcross (vsub v2.w v1.w) (vsub v3.w v1.w)
  | _ => 0

/-- Seeds the simplex from the cache when it holds a valid index-pair
set (per the spec's warm start), falling back to the single vertex of
index pair (0, 0) when the cache is empty or its metric shows the
cached simplex is degenerate or stale. -/
def readCache (cache : SimplexCache) (pA pB : DistanceProxy)
    (xfA xfB : Transformation) : Simplex :=
  let fallback := [mkSimplexVertex pA pB xfA xfB 0 0]
  let s := cache.indexPairs.map (fun ip => mkSimplexVertex pA pB xfA xfB ip.a ip.b)
  if 2 ≤ s.length then
    let metric1 := cache.metric
    let metric2 := simplexMetric s
    if metric2 < metric1 / 4 ∨ metric1 * 4 < metric2 ∨ metric2 = 0 then fallback else s
  else if s.length = 1 then s
  else fallback

/-- The configured maximum number of distance iterations. -/
def maxDistanceIters : Nat := 20

/-- The GJK main loop: solve the simplex; stop on a full simplex
(origin enclosed), a zero search direction (no improvement possible),
or a repeated support point (converged); otherwise add the new support
vertex and continue, counting iterations, until the fuel (the
configured iteration bound) runs out. -/
def gjkIterate (pA pB : DistanceProxy) (xfA xfB : Transformation) :
    Nat → Simplex → Nat → Simplex × Nat
  | 0, s, iters => (s, iters)
  | fuel + 1, s, iters =>
      let saved := s.map (fun v => (v.indexA, v.indexB))
      let s2 := solveSimplex s
      if s2.length = 3 then (s2, iters)
      else
        let d := searchDirection s2
        if vdot d d = 0 then (s2, iters)
        else
          let ia := pA.GetSupport (invRotate xfA d)
          let ib := pB.GetSupport (invRotate xfB (vneg d))
          let v := mkSimplexVertex pA pB xfA xfB ia ib
          if saved.any (fun ip => ip.1 = ia ∧ ip.2 = ib) then (s2, iters + 1)
          else gjkIterate pA pB xfA xfB fuel (s2 ++ [v]) (iters + 1)

/-- The distance solver's output: the two witness points and the
iteration count (embeds `DistanceOutput`). -/
structure DistanceOutput where
  witnessA : Vec2
  witnessB : Vec2
  iterations : Nat
deriving DecidableEq

/-- Modelled from the spec: `Distance(cache, proxyA, xfA, proxyB, xfB)`
seeds the simplex from the cache, runs the GJK loop up to the iteration
bound, and returns the witness points between the core point sets plus
the iteration count, writing the final simplex back to the cache. -/
def Distance (cache : SimplexCache) (pA : DistanceProxy) (xfA : Transformation)
    (pB : DistanceProxy) (xfB : Transformation) : DistanceOutput × SimplexCache :=
  let s0 := readCache cache pA pB xfA xfB
  let r := gjkIterate pA pB xfA xfB maxDistanceIters s0 0
  let wp := witnessPoints r.1
  (⟨wp.1, wp.2, r.2⟩,
   ⟨simplexMetric r.1, r.1.map (fun v => ⟨v.indexA, v.indexB⟩), true⟩)

unseal Rat.add Rat.mul Rat.sub Rat.inv in
/-- C3: `Distance` with an empty cache and identity transforms
reproduces the reference fixtures: two unit disks both centered at
(2,2) give 0 iterations, both witness points at (2,2), and cache count
1 with index pair (0,0); the square with corners (1,1),(1,3),(3,3),(3,1)
and vertex radius 0.5 against the segment from (-2,0) to (6,0) with
vertex radius 0.5 gives witness points (1,1) and (1,0), 2 iterations,
and cache count 2. -/
theorem distance_reference_fixtures :
    (Distance emptySimplexCache ⟨1, [(2, 2)]⟩ Transform_identity
        ⟨1, [(2, 2)]⟩ Transform_identity).1.iterations = 0 ∧
    (Distance emptySimplexCache ⟨1, [(2, 2)]⟩ Transform_identity
        ⟨1, [(2, 2)]⟩ Transform_identity).1.witnessA = (2, 2) ∧
    (Distance emptySimplexCache ⟨1, [(2, 2)]⟩ Transform_identity
        ⟨1, [(2, 2)]⟩ Transform_identity).1.witnessB = (2, 2) ∧
    (Distance emptySimplexCache ⟨1, [(2, 2)]⟩ Transform_identity
        ⟨1, [(2, 2)]⟩ Transform_identity).2.indexPairs = [⟨0, 0⟩] ∧
    (Distance emptySimplexCache ⟨1 / 2, [(1, 1), (1, 3), (3, 3), (3, 1)]⟩ Transform_identity
        ⟨1 / 2, [(-2, 0), (6, 0)]⟩ Transform_identity).1.witnessA = (1, 1) ∧
    (Distance emptySimplexCache ⟨1 / 2, [(1, 1), (1, 3), (3, 3), (3, 1)]⟩ Transform_identity
        ⟨1 / 2, [(-2, 0), (6, 0)]⟩ Transform_identity).1.witnessB = (1, 0) ∧
    (Distance emptySimplexCache ⟨1 / 2, [(1, 1), (1, 3), (3, 3), (3, 1)]⟩ Transform_identity
        ⟨1 / 2, [(-2, 0), (6, 0)]⟩ Transform_identity).1.iterations = 2 ∧
    (Distance emptySimplexCache ⟨1 / 2, [(1, 1), (1, 3), (3, 3), (3, 1)]⟩ Transform_identity
        ⟨1 / 2, [(-2, 0), (6, 0)]⟩ Transform_identity).2.indexPairs = [⟨0, 0⟩, ⟨0, 1⟩] := by
  decide

end PhysCore
